import Mathlib

/-!
Verification of the specification of a FastAPI tutorial application
(src/main.py) against a shallow embedding of its code.

The embedding models the pydantic record types (`Location`, `PersonBase`,
`Person`, `PersonOut`, `LoginOut`), pydantic's `.dict()` flattening of a
record into an insertion-ordered key-value mapping, Python's `dict.update`
(the merge performed by the `update_person` handler), and the route handler
bodies that the claims are about (`create_person`, the path-parameter
`show_person`, `update_person`, `login`).  Fallible handler code (raising
`HTTPException`) is embedded as `Except` with the HTTP status code as the
error value.
-/

namespace MainPy

/-- Embeds the `HairColor` enumeration (src/main.py lines 26-33). -/
inductive HairColor
  | white
  | brown
  | black
  | blonde
  | red
  | green
  | blue
  deriving DecidableEq, Repr

/-- Embeds the `Location` model (lines 36-55): three string fields, each
declared with `default=None`, so each is modelled as an optional string.
The declared 1..50 length bounds are recorded in `ValidLocation`. -/
structure Location where
  city : Option String
  state : Option String
  country : Option String
  deriving DecidableEq, Repr

/-- Embeds `PersonBase` (lines 57-104).  The `EmailStr` and `HttpUrl`
format checks are performed by the external pydantic library, not by code
in src/main.py, so those fields are modelled as plain strings. -/
structure PersonBase where
  first_name : String
  last_name : String
  age : Int
  email : String
  hair_color : Option HairColor
  is_married : Option Bool
  website : Option String
  deriving DecidableEq, Repr

/-- Embeds `Person` (lines 122-129): inherits every `PersonBase` field and
adds a required `password` field (min 8 characters). -/
structure Person extends PersonBase where
  password : String
  deriving DecidableEq, Repr

/-- Embeds `PersonOut` (lines 132-134): inherits `PersonBase` and adds
nothing (`pass` in the source). -/
structure PersonOut extends PersonBase
  deriving DecidableEq, Repr

/-- Embeds `LoginOut` (lines 136-141): a single `username` field. -/
structure LoginOut where
  username : String
  deriving DecidableEq, Repr

/-- A JSON-style field value as produced by pydantic's `.dict()`. -/
inductive Value
  | vStr : String → Value
  | vInt : Int → Value
  | vBool : Bool → Value
  | vHair : HairColor → Value
  | vNone : Value
  deriving DecidableEq, Repr

/-- A Python dict, modelled as an insertion-ordered association list with
(in all uses below) pairwise distinct keys. -/
abbrev Dict := List (String × Value)

/-- Python dict key access: the value at the first matching key. -/
def dlookup : Dict → String → Option Value
  | [], _ => none
  | (k, v) :: rest, key => if k = key then some v else dlookup rest key

/-- Lifts an optional field into a `Value`, as `.dict()` maps an unset
optional field to `None`. -/
def optVal {α : Type} (f : α → Value) : Option α → Value
  | some x => f x
  | none => Value.vNone

/-- `person.dict()` for the `Person` model: every `PersonBase` field
followed by `password`, in declaration order. -/
def Person.dict (p : Person) : Dict :=
  [("first_name", Value.vStr p.first_name),
   ("last_name", Value.vStr p.last_name),
   ("age", Value.vInt p.age),
   ("email", Value.vStr p.email),
   ("hair_color", optVal Value.vHair p.hair_color),
   ("is_married", optVal Value.vBool p.is_married),
   ("website", optVal Value.vStr p.website),
   ("password", Value.vStr p.password)]

/-- `.dict()` for a bare `PersonBase` record: the seven base fields. -/
def PersonBase.dict (b : PersonBase) : Dict :=
  [("first_name", Value.vStr b.first_name),
   ("last_name", Value.vStr b.last_name),
   ("age", Value.vInt b.age),
   ("email", Value.vStr b.email),
   ("hair_color", optVal Value.vHair b.hair_color),
   ("is_married", optVal Value.vBool b.is_married),
   ("website", optVal Value.vStr b.website)]

/-- `.dict()` for `PersonOut`: exactly the `PersonBase` fields, since
`PersonOut` adds nothing. -/
def PersonOut.dict (o : PersonOut) : Dict :=
  PersonBase.dict o.toPersonBase

/-- `location.dict()` for the `Location` model. -/
def Location.dict (l : Location) : Dict :=
  [("city", optVal Value.vStr l.city),
   ("state", optVal Value.vStr l.state),
   ("country", optVal Value.vStr l.country)]

/-- Python's `d1.update(d2)` (line 326), as a pure function returning the
updated dict: keys already present in `d1` keep their position and receive
`d2`'s value; keys only in `d2` are appended in `d2`'s order. -/
def dictUpdate (d1 d2 : Dict) : Dict :=
  (d1.map fun kv =>
    match dlookup d2 kv.1 with
    | some w => (kv.1, w)
    | none => kv) ++
  d2.filter fun kv => (dlookup d1 kv.1).isNone

/-- The declared `Field` constraints on an optional `Location` string:
either absent (the `None` default) or between 1 and 50 characters. -/
def ValidOptStr (o : Option String) : Prop :=
  match o with
  | none => True
  | some s => 1 ≤ s.length ∧ s.length ≤ 50

instance (o : Option String) : Decidable (ValidOptStr o) :=
  match o with
  | none => isTrue True.intro
  | some s => inferInstanceAs (Decidable (1 ≤ s.length ∧ s.length ≤ 50))

/-- The declared `Field` constraints on `Location` (lines 36-55). -/
abbrev ValidLocation (l : Location) : Prop :=
  ValidOptStr l.city ∧ ValidOptStr l.state ∧ ValidOptStr l.country

/-- The declared `Field` constraints on `Person` (lines 57-129): name
length bounds, the age range `0 < age ≤ 115`, and the 8-character password
minimum.  The email and website format checks live in the external
library and are not constraints written in src/main.py. -/
abbrev ValidPerson (p : Person) : Prop :=
  1 ≤ p.first_name.length ∧ p.first_name.length ≤ 50 ∧
  1 ≤ p.last_name.length ∧ p.last_name.length ≤ 50 ∧
  0 < p.age ∧ p.age ≤ 115 ∧
  8 ≤ p.password.length

/-- The hardcoded known-identifiers list (line 247):
`persons = [1,2,3,4,5]`. -/
def persons : List Int := [1, 2, 3, 4, 5]

/-- Embeds the path-parameter `show_person` handler (lines 258-284): when
the id is not in `persons` it raises `HTTPException(404)`, modelled as
`Except.error 404`; otherwise it returns the dict mapping the id to the
message `It exists!`. -/
def show_person (person_id : Int) : Except Nat (List (Int × String)) :=
  if person_id ∉ persons then
    Except.error 404
  else
    Except.ok [(person_id, "It exists!")]

/-- Embeds the `create_person` handler body (lines 182-194): it returns
its input unchanged. -/
def create_person (person : Person) : Person :=
  person

/-- The `response_model=PersonOut` declaration on the route (line 176):
the framework serializes the returned `Person` through `PersonOut`,
keeping exactly the `PersonOut` fields. -/
def personToOut (p : Person) : PersonOut :=
  { toPersonBase := p.toPersonBase }

/-- The response produced by the `POST /person/new` route: the handler
result projected through the declared `PersonOut` response model. -/
def create_person_response (person : Person) : PersonOut :=
  personToOut (create_person person)

/-- Embeds the `update_person` handler body (lines 298-332): it builds
`results` from `person.dict()`, updates it in place with
`location.dict()`, and returns it.  The body contains no `raise`, so the
error side of the `Except` is never produced. -/
def update_person (person_id : Int) (person : Person) (location : Location) :
    Except Nat Dict :=
  let results := Person.dict person
  let results := dictUpdate results (Location.dict location)
  Except.ok results

/-- The `update_person` body with the two input records threaded through
explicitly, to state the frame property: `person.dict()` copies the
fields into the fresh `results` dict, and `results` is the only object
that `.update` mutates, so both records come out unchanged. -/
def update_person_state (person : Person) (location : Location) :
    Dict × Person × Location :=
  let results := Person.dict person
  let results := dictUpdate results (Location.dict location)
  (results, person, location)

/-- The merge performed inside `update_person` (lines 325-326):
`person.dict()` updated with `location.dict()`. -/
def mergeRecords (person : Person) (location : Location) : Dict :=
  dictUpdate (Person.dict person) (Location.dict location)

/-- A pydantic model-validation failure, recording the violated bound and
the offending length. -/
inductive ValidationError
  | maxLength (limit : Nat) (actual : Nat)
  deriving DecidableEq, Repr

/-- Pydantic construction of `LoginOut` (the call
`LoginOut(username = username)` at line 365): the model validates the
`max_length=20` bound on `username` (line 139) and raises a
ValidationError when the string is longer. -/
def LoginOut.make (username : String) : Except ValidationError LoginOut :=
  if username.length ≤ 20 then
    Except.ok { username := username }
  else
    Except.error (ValidationError.maxLength 20 username.length)

/-- Embeds the `login` handler body (lines 346-365): it builds a
`LoginOut` from the username only; the password form field is accepted
but never used.  The `username` form parameter itself carries no length
constraint (line 347), so any string reaches the `LoginOut`
construction, whose `max_length=20` validation can raise. -/
def login (username : String) (password : String) :
    Except ValidationError LoginOut :=
  LoginOut.make username

/-- The example person from the models' example metadata, used as a
concrete valid input. -/
def nicolas : Person :=
  { first_name := "Nicolas",
    last_name := "Implant",
    age := 25,
    email := "nicolas@implant.com",
    hair_color := none,
    is_married := none,
    website := none,
    password := "HolaSoyNico" }

/-- The example location from the `Location` model's example metadata. -/
def bogota : Location :=
  { city := some "Bogota",
    state := some "Cundinamarca",
    country := some "Colombia" }

/- Helper lemmas about `dlookup` over the pieces of `dictUpdate`. -/

/-- A key found in the left part of an append is found in the append. -/
theorem dlookup_append_some (a b : Dict) (k : String) (v : Value) :
    dlookup a k = some v → dlookup (a ++ b) k = some v := by
  induction a with
  | nil => intro h; simp [dlookup] at h
  | cons hd tl ih =>
    intro h
    obtain ⟨k1, v1⟩ := hd
    by_cases hk : k1 = k
    · simp only [List.cons_append, dlookup, if_pos hk] at h ⊢
      exact h
    · simp only [List.cons_append, dlookup, if_neg hk] at h ⊢
      exact ih h

/-- A key absent from the left part of an append is looked up in the
right part. -/
theorem dlookup_append_none (a b : Dict) (k : String) :
    dlookup a k = none → dlookup (a ++ b) k = dlookup b k := by
  induction a with
  | nil => intro _; rfl
  | cons hd tl ih =>
    intro h
    obtain ⟨k1, v1⟩ := hd
    by_cases hk : k1 = k
    · simp only [dlookup, if_pos hk] at h
      exact Option.noConfusion h
    · simp only [List.cons_append, dlookup, if_neg hk] at h ⊢
      exact ih h

/-- The overriding map inside `dictUpdate` preserves key absence. -/
theorem dlookup_mapOverride_none (d1 d2 : Dict) (k : String) :
    dlookup d1 k = none →
    dlookup (d1.map fun kv =>
      match dlookup d2 kv.1 with
      | some w => (kv.1, w)
      | none => kv) k = none := by
  induction d1 with
  | nil => intro _; rfl
  | cons hd tl ih =>
    intro h
    obtain ⟨k1, v1⟩ := hd
    by_cases hk : k1 = k
    · simp only [dlookup, if_pos hk] at h
      exact Option.noConfusion h
    · simp only [dlookup, if_neg hk] at h
      simp only [List.map_cons]
      cases hd2 : dlookup d2 k1 with
      | none =>
        simp only [hd2, dlookup, if_neg hk]
        exact ih h
      | some w =>
        simp only [hd2, dlookup, if_neg hk]
        exact ih h

/-- The overriding map inside `dictUpdate`: a key present in `d1` gets
`d2`'s value when `d2` has the key, and keeps its own value otherwise. -/
theorem dlookup_mapOverride_some (d1 d2 : Dict) (k : String) (v : Value) :
    dlookup d1 k = some v →
    dlookup (d1.map fun kv =>
      match dlookup d2 kv.1 with
      | some w => (kv.1, w)
      | none => kv) k =
      match dlookup d2 k with
      | some w => some w
      | none => some v := by
  induction d1 with
  | nil => intro h; simp [dlookup] at h
  | cons hd tl ih =>
    intro h
    obtain ⟨k1, v1⟩ := hd
    by_cases hk : k1 = k
    · subst hk
      simp only [dlookup, if_pos rfl, if_true] at h
      simp only [List.map_cons]
      cases hd2 : dlookup d2 k1 with
      | none => simp [dlookup, hd2, h]
      | some w => simp [dlookup, hd2]
    · simp only [dlookup, if_neg hk] at h
      simp only [List.map_cons]
      cases hd2 : dlookup d2 k1 with
      | none =>
        simp only [hd2, dlookup, if_neg hk]
        exact ih h
      | some w =>
        simp only [hd2, dlookup, if_neg hk]
        exact ih h

/-- Filtering `d` by "key absent from `d1`" does not change lookups of
keys absent from `d1`. -/
theorem dlookup_filter_other (d1 d : Dict) (k : String) :
    dlookup d1 k = none →
    dlookup (d.filter fun kv => (dlookup d1 kv.1).isNone) k = dlookup d k := by
  induction d with
  | nil => intro _; rfl
  | cons hd tl ih =>
    intro h
    obtain ⟨k1, v1⟩ := hd
    by_cases hk : k1 = k
    · subst hk
      rw [List.filter_cons]
      simp only [h, Option.isNone_none, if_true]
      simp [dlookup]
    · rw [List.filter_cons]
      cases hd1 : (dlookup d1 k1).isNone with
      | false =>
        simp only [hd1, if_false, Bool.false_eq_true]
        simp only [dlookup, if_neg hk]
        exact ih h
      | true =>
        simp only [hd1, if_true]
        simp only [dlookup, if_neg hk]
        exact ih h

/-- The value of any key after `dictUpdate d1 d2`: `d2`'s value when `d2`
has the key, otherwise `d1`'s. -/
theorem dlookup_dictUpdate (d1 d2 : Dict) (k : String) :
    dlookup (dictUpdate d1 d2) k =
      match dlookup d2 k with
      | some w => some w
      | none => dlookup d1 k := by
  unfold dictUpdate
  cases h1 : dlookup d1 k with
  | none =>
    rw [dlookup_append_none _ _ _ (dlookup_mapOverride_none d1 d2 k h1),
      dlookup_filter_other d1 d2 k h1]
    cases h2 : dlookup d2 k <;> simp [h1]
  | some v =>
    cases h2 : dlookup d2 k with
    | none =>
      have hmap := dlookup_mapOverride_some d1 d2 k v h1
      rw [h2] at hmap
      rw [dlookup_append_some _ _ _ _ hmap]
    | some w =>
      have hmap := dlookup_mapOverride_some d1 d2 k v h1
      rw [h2] at hmap
      rw [dlookup_append_some _ _ _ _ hmap]

/-- Claim C1 (counterexample): the claim says the merged result of
`update_person` contains no `password` key, because the `Person` model
used there supposedly lacks a password field.  In the code, `Person`
(lines 122-129) does carry `password`, so for the valid example inputs
the merged mapping binds `password` to the person's password. -/
theorem update_person_password_cex :
    ValidPerson nicolas ∧ ValidLocation bogota ∧
    update_person 123 nicolas bogota = Except.ok (mergeRecords nicolas bogota) ∧
    dlookup (mergeRecords nicolas bogota) "password" =
      some (Value.vStr "HolaSoyNico") ∧
    dlookup (mergeRecords nicolas bogota) "password" ≠ none :=
  ⟨by decide, by decide, rfl, rfl, by decide⟩

/-- Claim C1 (amended): the `Person` model used by `update_person`
includes a `password` field, so for every valid `Person` and `Location`
input the merged result mapping contains the `password` key, bound to the
person's password. -/
theorem update_person_result_has_password (pid : Int) (p : Person)
    (l : Location) (hp : ValidPerson p) (hl : ValidLocation l) :
    ∃ d, update_person pid p l = Except.ok d ∧
      dlookup d "password" = some (Value.vStr p.password) :=
  ⟨mergeRecords p l, rfl, rfl⟩

/-- Witness for the amended claim C1 at the concrete example inputs. -/
theorem update_person_result_has_password_witness :
    ∃ d, update_person 123 nicolas bogota = Except.ok d ∧
      dlookup d "password" = some (Value.vStr nicolas.password) :=
  update_person_result_has_password 123 nicolas bogota (by decide) (by decide)

/-- Claim C2: the merge performed by `update_person` is the Python dict
update of `person.dict()` with `location.dict()`, and that update is
second-argument-wins: any key present in the second mapping is bound to
the second mapping's value in the result. -/
theorem update_merge_second_wins :
    (∀ (pid : Int) (p : Person) (l : Location),
      update_person pid p l =
        Except.ok (dictUpdate (Person.dict p) (Location.dict l))) ∧
    ∀ (d1 d2 : Dict) (k : String) (w : Value), dlookup d2 k = some w →
      dlookup (dictUpdate d1 d2) k = some w := by
  refine ⟨fun pid p l => rfl, fun d1 d2 k w h => ?_⟩
  rw [dlookup_dictUpdate, h]

/-- Witness for C2 at the spec's collision scenario: merging
`P = [city: A]` with `L = [city: B]` yields `[city: B]`. -/
theorem update_merge_second_wins_witness :
    dictUpdate [("city", Value.vStr "A")] [("city", Value.vStr "B")] =
      [("city", Value.vStr "B")] ∧
    dlookup (dictUpdate [("city", Value.vStr "A")] [("city", Value.vStr "B")])
      "city" = some (Value.vStr "B") :=
  ⟨rfl, update_merge_second_wins.2 [("city", Value.vStr "A")]
    [("city", Value.vStr "B")] "city" (Value.vStr "B") rfl⟩

/-- Claim C3: for valid person and location records — whose flattened key
sets are disjoint — the merged mapping of `update_person` contains every
key of the person's dict and every key of the location's dict, each bound
to its original value; and, at the flattened-mapping level, the spec's
concrete Nicolas/Bogota scenario merges to exactly the combined
mapping. -/
theorem update_merge_disjoint_union (p : Person) (l : Location)
    (hp : ValidPerson p) (hl : ValidLocation l)
    (hdisj : ∀ k ∈ (Person.dict p).map Prod.fst,
      k ∉ (Location.dict l).map Prod.fst) :
    (dlookup (mergeRecords p l) "first_name" = some (Value.vStr p.first_name) ∧
     dlookup (mergeRecords p l) "last_name" = some (Value.vStr p.last_name) ∧
     dlookup (mergeRecords p l) "age" = some (Value.vInt p.age) ∧
     dlookup (mergeRecords p l) "email" = some (Value.vStr p.email) ∧
     dlookup (mergeRecords p l) "hair_color" =
       some (optVal Value.vHair p.hair_color) ∧
     dlookup (mergeRecords p l) "is_married" =
       some (optVal Value.vBool p.is_married) ∧
     dlookup (mergeRecords p l) "website" =
       some (optVal Value.vStr p.website) ∧
     dlookup (mergeRecords p l) "password" = some (Value.vStr p.password) ∧
     dlookup (mergeRecords p l) "city" = some (optVal Value.vStr l.city) ∧
     dlookup (mergeRecords p l) "state" = some (optVal Value.vStr l.state) ∧
     dlookup (mergeRecords p l) "country" =
       some (optVal Value.vStr l.country)) ∧
    dictUpdate
      [("first_name", Value.vStr "Nicolas"), ("last_name", Value.vStr "Implant"),
       ("age", Value.vInt 25), ("email", Value.vStr "nicolas@implant.com")]
      [("city", Value.vStr "Bogota"), ("state", Value.vStr "Cundinamarca"),
       ("country", Value.vStr "Colombia")] =
      [("first_name", Value.vStr "Nicolas"), ("last_name", Value.vStr "Implant"),
       ("age", Value.vInt 25), ("email", Value.vStr "nicolas@implant.com"),
       ("city", Value.vStr "Bogota"), ("state", Value.vStr "Cundinamarca"),
       ("country", Value.vStr "Colombia")] :=
  ⟨⟨rfl, rfl, rfl, rfl, rfl, rfl, rfl, rfl, rfl, rfl, rfl⟩, rfl⟩

/-- Witness for C3 at the concrete example person and location. -/
theorem update_merge_disjoint_union_witness :
    dlookup (mergeRecords nicolas bogota) "first_name" =
      some (Value.vStr nicolas.first_name) :=
  (update_merge_disjoint_union nicolas bogota (by decide) (by decide)
    (by decide)).1.1

/-- Claim C4: `PersonOut` carries exactly the seven `PersonBase` fields —
no `password` among them — and the response of the create-person route,
shaped by the `PersonOut` response model, has no `password` key for any
valid input `Person`. -/
theorem create_person_response_no_password :
    (∀ o : PersonOut, (PersonOut.dict o).map Prod.fst =
      ["first_name", "last_name", "age", "email", "hair_color",
       "is_married", "website"]) ∧
    ∀ p : Person, ValidPerson p →
      dlookup (PersonOut.dict (create_person_response p)) "password" = none :=
  ⟨fun o => rfl, fun p hp => rfl⟩

/-- Witness for C4 at the concrete example person. -/
theorem create_person_response_no_password_witness :
    dlookup (PersonOut.dict (create_person_response nicolas)) "password" =
      none :=
  create_person_response_no_password.2 nicolas (by decide)

/-- Claim C5: merging with an empty counterpart is the identity up to
flattening: updating a person's dict with the empty dict returns the
person's dict, and updating the empty dict with a location's dict returns
the location's dict. -/
theorem update_merge_empty_identity (p : Person) (l : Location) :
    dictUpdate (Person.dict p) [] = Person.dict p ∧
    dictUpdate [] (Location.dict l) = Location.dict l :=
  ⟨rfl, rfl⟩

/-- Claim C6: for every positive id, the path-parameter `show_person`
handler raises the 404 not-found exception exactly when the id is absent
from `persons = [1,2,3,4,5]`, and returns the dict mapping the id to
`It exists!` when the id is present. -/
theorem show_person_not_found_iff (person_id : Int) (h : 0 < person_id) :
    ((show_person person_id = Except.error 404) ↔ person_id ∉ persons) ∧
    (person_id ∈ persons →
      show_person person_id = Except.ok [(person_id, "It exists!")]) := by
  by_cases hm : person_id ∈ persons <;> simp [show_person, hm]

/-- Witness for C6 at the known id 3. -/
theorem show_person_not_found_iff_witness :
    (0 : Int) < 3 ∧
    (((show_person 3 = Except.error 404) ↔ (3 : Int) ∉ persons) ∧
      ((3 : Int) ∈ persons →
        show_person 3 = Except.ok [((3 : Int), "It exists!")])) :=
  ⟨by decide, show_person_not_found_iff 3 (by decide)⟩

/-- Claim C7: the merge in `update_person` is total and cannot fail: for
already-validated inputs the handler performs no validation and no raise
of its own, and always returns `Except.ok` with a result mapping. -/
theorem update_person_total (pid : Int) (p : Person) (l : Location)
    (hp : ValidPerson p) (hl : ValidLocation l) :
    ∃ d : Dict, update_person pid p l = Except.ok d :=
  ⟨mergeRecords p l, rfl⟩

/-- Witness for C7 at the concrete example inputs. -/
theorem update_person_total_witness :
    ∃ d : Dict, update_person 123 nicolas bogota = Except.ok d :=
  update_person_total 123 nicolas bogota (by decide) (by decide)

/-- Claim C8: the merge in `update_person` is side-effect free on its
inputs: with the body's state threaded explicitly, both input records
come out of the handler unchanged (only the fresh `results` copy made by
`person.dict()` is updated). -/
theorem update_person_inputs_unchanged (p : Person) (l : Location) :
    (update_person_state p l).2.1 = p ∧ (update_person_state p l).2.2 = l :=
  ⟨rfl, rfl⟩

/-- Claim C9: the merge in `update_person` is deterministic: equal inputs
give equal merged output mappings. -/
theorem update_merge_deterministic (p1 p2 : Person) (l1 l2 : Location)
    (hp : p1 = p2) (hl : l1 = l2) :
    mergeRecords p1 l1 = mergeRecords p2 l2 := by
  rw [hp, hl]

/-- Witness for C9 at the concrete example inputs. -/
theorem update_merge_deterministic_witness :
    mergeRecords nicolas bogota = mergeRecords nicolas bogota :=
  update_merge_deterministic nicolas nicolas bogota bogota rfl rfl

/-- Claim C10 (counterexample): the claim's "for every username u the
handler returns LoginOut(username = u)" fails: for a 21-character
username, `LoginOut`'s `max_length=20` validation raises instead of
returning a `LoginOut`, whatever the password. -/
theorem login_long_username_cex :
    login "abcdefghijklmnopqrstu" "pw1" =
      Except.error (ValidationError.maxLength 20 21) ∧
    login "abcdefghijklmnopqrstu" "pw1" ≠
      Except.ok { username := "abcdefghijklmnopqrstu" } ∧
    login "abcdefghijklmnopqrstu" "pw1" = login "abcdefghijklmnopqrstu" "pw2" :=
  ⟨rfl, fun h => Except.noConfusion h, rfl⟩

/-- Claim C10 (amended): the `login` handler's response never depends on
the submitted password — any two passwords give the same result for
every username — and for every username within `LoginOut`'s
`max_length=20` bound the response is the `LoginOut` record whose only
field is the submitted username. -/
theorem login_independent_of_password :
    (∀ u p1 p2 : String, login u p1 = login u p2) ∧
    ∀ u p : String, u.length ≤ 20 →
      login u p = Except.ok { username := u } := by
  refine ⟨fun u p1 p2 => rfl, fun u p h => ?_⟩
  unfold login LoginOut.make
  rw [if_pos h]

/-- Witness for the amended claim C10 at the example username (line 140),
which is within the 20-character bound. -/
theorem login_independent_of_password_witness :
    login "Nicolasimplant" "pw1" = login "Nicolasimplant" "pw2" ∧
    login "Nicolasimplant" "pw1" =
      Except.ok { username := "Nicolasimplant" } :=
  ⟨login_independent_of_password.1 "Nicolasimplant" "pw1" "pw2",
   login_independent_of_password.2 "Nicolasimplant" "pw1" (by decide)⟩

end MainPy
